import Mathlib

/-!
Verification of the risk-aware SAC core of SafeBench.

Shallow embedding of `safebench/agent/rl/sac.py` and
`safebench/gym_carla/replay_buffer.py`.  Neural networks, the Normal
sampler and the uniform index generator are kept abstract: the networks
become uninterpreted functions, and every random draw (the pre-squash
Normal sample `z`, the replay-buffer index vector) is threaded through as
an explicit argument.  Tensor arithmetic on scalars is modelled over the
rationals where the surrounding code is pure arithmetic, and over the
reals where the source applies transcendental functions (tanh, exp, log).
-/

namespace SafeBench

/-- torch.clamp on rationals: clip x into the interval [lo, hi]. -/
def clamp (x lo hi : ℚ) : ℚ := min (max x lo) hi

/-- Bootstrapped task target of SAC.train (sac.py 288-297): with
bn_d = 1 - done, next_q_value = bn_r + bn_d * gamma * target_value. -/
def next_q_value (gamma reward done target_value : ℚ) : ℚ :=
  let bn_d := 1 - done
  reward + bn_d * gamma * target_value

/-- Bootstrapped risk target of SAC.train (sac.py 289-302): the risk field
of the batch is negated on load (bn_r_risk = -batch.risk, sac.py 289), the
base target is bn_r_risk + bn_d * gamma * target_value_risk, and the
terminal bonus clamp(bn_r_risk/(1-gamma)*(1-bn_d) - bn_r_risk, 0, 50/(1-gamma))
is added, with bn_d = 1 - done. -/
def next_q_risk_value (gamma risk done target_value_risk : ℚ) : ℚ :=
  let bn_r_risk := -risk
  let bn_d := 1 - done
  let base := bn_r_risk + bn_d * gamma * target_value_risk
  let max_terminal :=
    clamp (bn_r_risk / (1 - gamma) * (1 - bn_d) - bn_r_risk) 0 (50 / (1 - gamma))
  base + max_terminal

/-- The risk target exactly as claim C1 words it, for comparison with
next_q_risk_value: risk is taken to be the risk scalar of the sampled
batch and the terminal bonus is weighted by (1 - done). -/
def next_q_risk_value_claimC1 (gamma risk done target_value_risk : ℚ) : ℚ :=
  risk + (1 - done) * gamma * target_value_risk +
    clamp (risk / (1 - gamma) * (1 - done) - risk) 0 (50 / (1 - gamma))

/-- C1 counterexample: at gamma = 1/2, batch risk 1, done = 1 and
V_risk_target = 0 the code computes -1 while the claimed formula gives 1. -/
theorem C1_counterexample :
    next_q_risk_value (1/2) 1 1 0 ≠ next_q_risk_value_claimC1 (1/2) 1 1 0 := by
  simp only [next_q_risk_value, next_q_risk_value_claimC1, clamp]
  norm_num

/-- C1 (amended): the task target is reward + (1-done)*gamma*V_target, and
the risk target is negRisk + (1-done)*gamma*V_risk_target plus the terminal
bonus clamp(negRisk/(1-gamma)*done - negRisk, 0, 50/(1-gamma)), where
negRisk is the negation of the sampled batch's risk scalar. -/
theorem C1_targets (gamma reward risk done v v_risk : ℚ) :
    next_q_value gamma reward done v = reward + (1 - done) * gamma * v ∧
    next_q_risk_value gamma risk done v_risk =
      -risk + (1 - done) * gamma * v_risk +
        clamp (-risk / (1 - gamma) * done - -risk) 0 (50 / (1 - gamma)) := by
  constructor
  · rfl
  · show -risk + (1 - done) * gamma * v_risk +
        clamp (-risk / (1 - gamma) * (1 - (1 - done)) - -risk) 0 (50 / (1 - gamma)) = _
    have h : -risk / (1 - gamma) * (1 - (1 - done)) - -risk
        = -risk / (1 - gamma) * done - -risk := by ring
    rw [h]

/-- Suppression gate of SAC.train (sac.py 337-339): the weight tensor is
the constant 10.0, gate = clamp(-expected_new_Q_risk * weight * 2, 0.25, 0.75). -/
def suppression_gate (expected_new_Q_risk : ℚ) : ℚ :=
  let suppression_weight : ℚ := 10
  let gate := -expected_new_Q_risk * suppression_weight
  clamp (gate * 2) (1/4) (3/4)

/-- Blended policy target of SAC.train with suppression on (sac.py 333-342):
log_policy_target = (new_Q - V) * (1 - gate) + gate * (new_Q_risk - V_risk). -/
def log_policy_target_suppressed
    (expected_new_Q expected_value expected_new_Q_risk expected_value_risk : ℚ) : ℚ :=
  let log_policy_target := expected_new_Q - expected_value
  let log_policy_recovery_target := expected_new_Q_risk - expected_value_risk
  let gate := suppression_gate expected_new_Q_risk
  log_policy_target * (1 - gate) + gate * log_policy_recovery_target

/-- C3: with suppression enabled the policy target is the blend of
new_Q - V(state) with the recovery target through the gate
clamp(-new_Q_risk * 10 * 2, 0.25, 0.75), and the gate always lies in
[0.25, 0.75]. -/
theorem C3_suppression_blend (q v q_risk v_risk : ℚ) :
    suppression_gate q_risk = clamp (-q_risk * 10 * 2) (1/4) (3/4) ∧
    log_policy_target_suppressed q v q_risk v_risk =
      (q - v) * (1 - suppression_gate q_risk) +
        suppression_gate q_risk * (q_risk - v_risk) ∧
    1/4 ≤ suppression_gate q_risk ∧ suppression_gate q_risk ≤ 3/4 := by
  refine ⟨rfl, rfl, ?_, ?_⟩
  · exact le_min (le_max_right _ _) (by norm_num)
  · exact min_le_right _ _

/-- Polyak soft update of SAC.train (sac.py 384-388): every target
parameter is overwritten with target*(1-tau) + live*tau. -/
def soft_update (tau : ℚ) (target live : List ℚ) : List ℚ :=
  List.zipWith (fun target_param param => target_param * (1 - tau) + param * tau)
    target live

theorem soft_update_getD (tau : ℚ) (target live : List ℚ)
    (h : target.length = live.length) (i : ℕ) :
    (soft_update tau target live).getD i 0
      = target.getD i 0 * (1 - tau) + live.getD i 0 * tau := by
  induction target generalizing live i with
  | nil =>
    have hl : live = [] := by
      cases live with
      | nil => rfl
      | cons p ps => simp at h
    subst hl
    simp [soft_update]
  | cons t ts ih =>
    cases live with
    | nil => simp at h
    | cons p ps =>
      cases i with
      | zero => simp [soft_update]
      | succ n =>
        simpa [soft_update] using ih ps (by simpa using h) n

theorem soft_update_zero (target live : List ℚ) (h : target.length = live.length) :
    soft_update 0 target live = target := by
  induction target generalizing live with
  | nil => rfl
  | cons t ts ih =>
    cases live with
    | nil => simp at h
    | cons p ps =>
      simp only [soft_update, List.zipWith_cons_cons, List.cons.injEq]
      refine ⟨by ring, ?_⟩
      exact ih ps (by simpa using h)

theorem soft_update_one (target live : List ℚ) (h : target.length = live.length) :
    soft_update 1 target live = live := by
  induction target generalizing live with
  | nil =>
    cases live with
    | nil => rfl
    | cons p ps => simp at h
  | cons t ts ih =>
    cases live with
    | nil => simp at h
    | cons p ps =>
      simp only [soft_update, List.zipWith_cons_cons, List.cons.injEq]
      refine ⟨by ring, ?_⟩
      exact ih ps (by simpa using h)

/-- C6: after the soft update every target parameter equals its previous
value times (1-tau) plus the live parameter times tau; tau = 0 leaves the
target unchanged and tau = 1 copies the live parameters exactly. -/
theorem C6_soft_update (tau : ℚ) (target live : List ℚ)
    (h : target.length = live.length) :
    (∀ i : ℕ, (soft_update tau target live).getD i 0
        = target.getD i 0 * (1 - tau) + live.getD i 0 * tau) ∧
    soft_update 0 target live = target ∧
    soft_update 1 target live = live :=
  ⟨soft_update_getD tau target live h,
   soft_update_zero target live h,
   soft_update_one target live h⟩

theorem C6_soft_update_witness :
    ([2] : List ℚ).length = ([4] : List ℚ).length ∧
    ((∀ i : ℕ, (soft_update (1/2) [2] [4]).getD i 0
        = ([2] : List ℚ).getD i 0 * (1 - 1/2) + ([4] : List ℚ).getD i 0 * (1/2)) ∧
      soft_update 0 [2] [4] = [2] ∧
      soft_update 1 [2] [4] = [4]) :=
  ⟨rfl, C6_soft_update (1/2) [2] [4] rfl⟩

/-- SAC.train control flow (sac.py 278-282): return immediately when the
buffer holds fewer transitions than buffer_start_training, otherwise run
update_iteration inner iterations; the whole mutable state (parameters,
optimizers, targets) is abstracted into S and one inner iteration into
train_iteration. -/
def train {S : Type} (buffer_start_training update_iteration buffer_len : ℕ)
    (train_iteration : S → S) (st : S) : S :=
  if buffer_len < buffer_start_training then st
  else train_iteration^[update_iteration] st

/-- C8: below the warm-up threshold the training step returns its state
unchanged; in particular no inner iteration (and hence no buffer sampling
or parameter, optimizer or target update) takes place. -/
theorem C8_train_guard {S : Type} (buffer_start_training update_iteration buffer_len : ℕ)
    (train_iteration : S → S) (st : S)
    (h : buffer_len < buffer_start_training) :
    train buffer_start_training update_iteration buffer_len train_iteration st = st := by
  unfold train
  rw [if_pos h]

theorem C8_train_guard_witness :
    (2 : ℕ) < 5 ∧ train 5 3 2 Nat.succ (0 : ℕ) = 0 :=
  ⟨by decide, C8_train_guard 5 3 2 Nat.succ 0 (by decide)⟩

/-- SAC.get_action (sac.py 206-232), batched over a list of states, with the
networks abstracted: task_sample s is the local sample function applied to the
task policy head at s, rec_sample s the same for the recovery policy head, and
Q_risk_net the risk critic.  The source evaluates the risk tensor of the whole
batch but inspects only its first element (risk.ravel()[0], sac.py 224) and
substitutes the recovery sample for every element of the batch at once.  On an
empty batch the source would fault on that index; the embedding falls through
to the task actions there, a case no claim exercises. -/
def get_action {σ α R : Type} [LinearOrder R] [Neg R] (risk_thresh : R)
    (Q_risk_net : σ → α → R) (task_sample rec_sample : σ → α)
    (state : List σ) : List α × List α :=
  let task_action := state.map task_sample
  let action :=
    match state with
    | [] => task_action
    | s0 :: _ =>
      if Q_risk_net s0 (task_sample s0) < -risk_thresh then state.map rec_sample
      else task_action
  (task_action, action)

/-- Risk critic for the C2 counterexample: batch element 0 is judged unsafe
(risk -1), batch element 1 safe (risk 0). -/
def Q_risk_C2 : ℕ → ℚ → ℚ := fun s _ => if s = 0 then -1 else 0

/-- Task policy sample for the C2 counterexample: constant action 5. -/
def task_sample_C2 : ℕ → ℚ := fun _ => 5

/-- Recovery policy sample for the C2 counterexample: constant action 7. -/
def rec_sample_C2 : ℕ → ℚ := fun _ => 7

/-- C2 counterexample: on the batch [0, 1] element 1's risk estimate (0) is
not below -risk_threshold, yet its executed action is the recovery sample 7,
not the task action 5: the gate looks only at element 0. -/
theorem C2_counterexample :
    ¬ (Q_risk_C2 1 (task_sample_C2 1) < -(1/10 : ℚ)) ∧
    (get_action (1/10 : ℚ) Q_risk_C2 task_sample_C2 rec_sample_C2 [0, 1]).2.getD 1 0
      ≠ task_sample_C2 1 := by
  constructor
  · simp only [Q_risk_C2, task_sample_C2]
    norm_num
  · simp only [get_action, Q_risk_C2, task_sample_C2, rec_sample_C2, List.map_cons,
      List.map_nil]
    norm_num

/-- C2 (amended): get_action returns the pair (task actions, executed
actions); the executed actions are gated on the first batch element only:
when Q_risk(state[0], task_action[0]) < -risk_threshold every element's
executed action is the recovery-policy sample, otherwise every element's
executed action is its task action. -/
theorem C2_first_element_gate {σ α R : Type} [LinearOrder R] [Neg R]
    (risk_thresh : R) (Q_risk_net : σ → α → R) (task_sample rec_sample : σ → α)
    (s0 : σ) (rest : List σ) :
    (get_action risk_thresh Q_risk_net task_sample rec_sample (s0 :: rest)).1
        = (s0 :: rest).map task_sample ∧
    (get_action risk_thresh Q_risk_net task_sample rec_sample (s0 :: rest)).2
        = if Q_risk_net s0 (task_sample s0) < -risk_thresh
          then (s0 :: rest).map rec_sample
          else (s0 :: rest).map task_sample := by
  constructor
  · rfl
  · rfl

/-- |tanh x| < 1 over the reals. -/
theorem abs_tanh_lt_one (x : ℝ) : |Real.tanh x| < 1 := by
  have hc := Real.cosh_pos x
  have h1 : |Real.sinh x| < Real.cosh x := by
    rw [abs_lt]
    constructor
    · have h := Real.sinh_lt_cosh (-x)
      rw [Real.sinh_neg, Real.cosh_neg] at h
      linarith
    · exact Real.sinh_lt_cosh x
  rw [Real.tanh_eq_sinh_div_cosh, abs_div, abs_of_pos hc, div_lt_one hc]
  exact h1

/-- The mean head of Actor.forward (sac.py 60): mu = tanh(fc_mu(x)); the
dense trunk output is abstracted as the real argument. -/
noncomputable def actor_mu (fc_mu_out : ℝ) : ℝ := Real.tanh fc_mu_out

/-- The local sample function of SAC.get_action (sac.py 210-218):
deterministic mode returns mu unchanged, stochastic mode returns tanh(z)
for the Normal draw z (threaded as an argument). -/
noncomputable def sample_action (deterministic : Bool) (mu z : ℝ) : ℝ :=
  if deterministic then mu else Real.tanh z

/-- C7: every action returned by get_action — task action and executed
action alike — lies strictly within (-1, 1), in stochastic mode because the
draw is tanh-squashed and in deterministic mode because the actor's mean is
itself tanh-bounded. -/
theorem C7_action_bounds {σ : Type} (deterministic : Bool) (risk_thresh : ℝ)
    (Q_risk_net : σ → ℝ → ℝ) (fc_mu_task fc_mu_rec z_task z_rec : σ → ℝ)
    (state : List σ) :
    (∀ a ∈ (get_action risk_thresh Q_risk_net
        (fun s => sample_action deterministic (actor_mu (fc_mu_task s)) (z_task s))
        (fun s => sample_action deterministic (actor_mu (fc_mu_rec s)) (z_rec s))
        state).1, -1 < a ∧ a < 1) ∧
    (∀ a ∈ (get_action risk_thresh Q_risk_net
        (fun s => sample_action deterministic (actor_mu (fc_mu_task s)) (z_task s))
        (fun s => sample_action deterministic (actor_mu (fc_mu_rec s)) (z_rec s))
        state).2, -1 < a ∧ a < 1) := by
  have key : ∀ m z : ℝ, -1 < sample_action deterministic (actor_mu m) z
      ∧ sample_action deterministic (actor_mu m) z < 1 := by
    intro m z
    have h1 := abs_lt.mp (abs_tanh_lt_one m)
    have h2 := abs_lt.mp (abs_tanh_lt_one z)
    unfold sample_action actor_mu
    cases deterministic with
    | false => simpa using h2
    | true => simpa using h1
  constructor
  · intro a ha
    simp only [get_action, List.mem_map] at ha
    obtain ⟨s, -, rfl⟩ := ha
    exact key _ _
  · intro a ha
    cases state with
    | nil => simp [get_action] at ha
    | cons s0 rest =>
      dsimp only [get_action] at ha
      split at ha
      · obtain ⟨s, -, rfl⟩ := List.mem_map.mp ha
        exact key _ _
      · obtain ⟨s, -, rfl⟩ := List.mem_map.mp ha
        exact key _ _

/-- Log-density of Normal(mu, sigma) at z, as computed by
torch.distributions.Normal.log_prob. -/
noncomputable def normal_log_prob (mu sigma z : ℝ) : ℝ :=
  -((z - mu) ^ 2) / (2 * sigma ^ 2) - Real.log sigma
    - Real.log (Real.sqrt (2 * Real.pi))

/-- One action-dimension summand of the corrected log-probability of
SAC.get_action_log_prob (sac.py 236-243): sigma = exp(log_sigma), the
squashed action is tanh(z), and the correction subtracts
log(max(1 - tanh(z)^2 + min_Val, 0) + 1e-3). -/
noncomputable def squashed_term (min_Val mu log_sigma z : ℝ) : ℝ :=
  normal_log_prob mu (Real.exp log_sigma) z
    - Real.log (max (1 - Real.tanh z ^ 2 + min_Val) 0 + 1/1000)

/-- The corrected log-probability of one batch row, summed across action
dimensions (sac.py 243-245); mu, log_sigma and the Normal draw z are lists
over the action dimensions. -/
noncomputable def task_log_prob_sum (min_Val : ℝ) (mu log_sigma z : List ℝ) : ℝ :=
  (List.zipWith (fun p zi => squashed_term min_Val p.1 p.2 zi)
    (mu.zip log_sigma) z).sum

theorem squashed_term_eq (min_Val mu log_sigma z : ℝ) (h : 0 ≤ min_Val) :
    squashed_term min_Val mu log_sigma z
      = normal_log_prob mu (Real.exp log_sigma) z
          - Real.log (1 - Real.tanh z ^ 2 + (min_Val + 1/1000)) := by
  unfold squashed_term
  have ht : Real.tanh z ^ 2 < 1 := by
    have habs := abs_lt.mp (abs_tanh_lt_one z)
    nlinarith [habs.1, habs.2]
  have hnn : (0 : ℝ) ≤ 1 - Real.tanh z ^ 2 + min_Val := by linarith
  rw [max_eq_left hnn]
  have harg : 1 - Real.tanh z ^ 2 + min_Val + 1/1000
      = 1 - Real.tanh z ^ 2 + (min_Val + 1/1000) := by ring
  rw [harg]

/-- C5: provided the configured min_Val is nonnegative, the corrected
log-probability equals the Normal log-density of the draw z minus
log(1 - tanh(z)^2 + eps) summed across action dimensions, with the floor
eps = min_Val + 1e-3 (the inner max with 0 never binds, since
tanh(z)^2 < 1). -/
theorem C5_log_prob (min_Val : ℝ) (mu log_sigma z : List ℝ) (h : 0 ≤ min_Val) :
    task_log_prob_sum min_Val mu log_sigma z
      = (List.zipWith (fun (p : ℝ × ℝ) zi =>
            normal_log_prob p.1 (Real.exp p.2) zi
              - Real.log (1 - Real.tanh zi ^ 2 + (min_Val + 1/1000)))
          (mu.zip log_sigma) z).sum := by
  unfold task_log_prob_sum
  have hfun : (fun (p : ℝ × ℝ) (zi : ℝ) => squashed_term min_Val p.1 p.2 zi)
      = fun (p : ℝ × ℝ) zi =>
          normal_log_prob p.1 (Real.exp p.2) zi
            - Real.log (1 - Real.tanh zi ^ 2 + (min_Val + 1/1000)) := by
    funext p zi
    exact squashed_term_eq min_Val p.1 p.2 zi h
  rw [hfun]

theorem C5_log_prob_witness :
    (0 : ℝ) ≤ 0 ∧
    task_log_prob_sum 0 [0] [0] [0]
      = (List.zipWith (fun (p : ℝ × ℝ) zi =>
            normal_log_prob p.1 (Real.exp p.2) zi
              - Real.log (1 - Real.tanh zi ^ 2 + (0 + 1/1000)))
          (([0] : List ℝ).zip [0]) [0]).sum :=
  ⟨le_rfl, C5_log_prob 0 [0] [0] [0] le_rfl⟩

/-- The record SAC.get_action_log_prob returns (sac.py 269-274). -/
structure ActionLogProb where
  task_action : List ℝ
  task_log_prob : ℝ
  mixed_action : List ℝ
  mixed_log_prob : ℝ

/-- SAC.get_action_log_prob (sac.py 234-274) for one batch row, with the
networks abstracted: (mu, log_sigma) and (mu_rec, log_sigma_rec) are the
policy and recovery heads at the given state, Q_risk_net the risk critic
applied there, and z, z_rec the Normal draws.  The per-element
recovery_active gate is computed but — exactly as in the source, where the
blend is commented out (sac.py 263-264) — unused: with recovery enabled the
mixed outputs are the recovery sample and its log-probability. -/
noncomputable def get_action_log_prob (use_recovery : Bool)
    (min_Val risk_thresh : ℝ) (mu log_sigma mu_rec log_sigma_rec : List ℝ)
    (Q_risk_net : List ℝ → ℝ) (z z_rec : List ℝ) : ActionLogProb :=
  let task_action := z.map Real.tanh
  let task_log_prob := task_log_prob_sum min_Val mu log_sigma z
  if use_recovery then
    let recovery_action := z_rec.map Real.tanh
    let recovery_log_prob := task_log_prob_sum min_Val mu_rec log_sigma_rec z_rec
    let risk := Q_risk_net task_action
    let recovery_active : ℝ := if risk < -risk_thresh then 1 else 0
    { task_action := task_action, task_log_prob := task_log_prob,
      mixed_action := recovery_action, mixed_log_prob := recovery_log_prob }
  else
    { task_action := task_action, task_log_prob := task_log_prob,
      mixed_action := task_action, mixed_log_prob := task_log_prob }

/-- C10: with recovery enabled, the mixed_action and mixed_log_prob of
get_action_log_prob are always the recovery policy's sample and its
log-probability, and the whole result is unchanged under any other risk
critic and any other risk threshold: the threshold is never applied on
this path. -/
theorem C10_mixed_is_recovery (min_Val risk_thresh risk_thresh' : ℝ)
    (mu log_sigma mu_rec log_sigma_rec : List ℝ)
    (Q_risk_net Q_risk_net' : List ℝ → ℝ) (z z_rec : List ℝ) :
    (get_action_log_prob true min_Val risk_thresh mu log_sigma mu_rec
        log_sigma_rec Q_risk_net z z_rec).mixed_action = z_rec.map Real.tanh ∧
    (get_action_log_prob true min_Val risk_thresh mu log_sigma mu_rec
        log_sigma_rec Q_risk_net z z_rec).mixed_log_prob
      = task_log_prob_sum min_Val mu_rec log_sigma_rec z_rec ∧
    get_action_log_prob true min_Val risk_thresh mu log_sigma mu_rec
        log_sigma_rec Q_risk_net z z_rec
      = get_action_log_prob true min_Val risk_thresh' mu log_sigma mu_rec
          log_sigma_rec Q_risk_net' z z_rec :=
  ⟨rfl, rfl, rfl⟩

/-- ReplayBuffer (replay_buffer.py 12-29): per-scenario trajectory lists
for the six stored fields, over one abstract element type T. -/
structure ReplayBuffer (T : Type) where
  mode : String
  buffer_capacity : ℕ
  num_scenario : ℕ
  buffer_len : ℕ
  buffer_ego_actions : List (List T)
  buffer_scenario_actions : List (List T)
  buffer_obs : List (List T)
  buffer_next_obs : List (List T)
  buffer_rewards : List (List T)
  buffer_dones : List (List T)

/-- The batch dict returned by ReplayBuffer.sample (replay_buffer.py 89-95). -/
structure SampleBatch (T : Type) where
  action : List T
  state : List T
  n_state : List T
  reward : List T
  done : List T
deriving DecidableEq

/-- The keys of the dict ReplayBuffer.sample returns (replay_buffer.py 89-95). -/
def sample_batch_keys : List String :=
  ["action", "state", "n_state", "reward", "done"]

/-- The keys SAC.train reads from the sampled batch (sac.py 285-291). -/
def train_batch_keys : List String :=
  ["state", "task_action", "mixed_action", "reward", "risk", "n_state", "done"]

/-- Per-scenario window concatenation of ReplayBuffer.sample
(replay_buffer.py 69-81): each scenario contributes the slice from
start_idx = max(0, length - samples_per_trajectory) on, i.e. its most
recent samples_per_trajectory entries (truncated subtraction on ℕ is
exactly the max with 0). -/
def prepared_pool {T : Type} (samples_per_trajectory : ℕ)
    (buf : List (List T)) : List T :=
  (buf.map (fun b => b.drop (b.length - samples_per_trajectory))).flatten

/-- ReplayBuffer.sample (replay_buffer.py 59-96).  The np.random.randint
draw is threaded in as sample_index (its length is the batch size); on an
empty pool np.random.randint(0, 0, ...) raises, modelled as none.  Row
selection by fancy indexing becomes getD, total under the in-range
contract of randint. -/
def ReplayBuffer.sample {T : Type} [Inhabited T] (rb : ReplayBuffer T)
    (sample_index : List ℕ) : Option (SampleBatch T) :=
  let samples_per_trajectory := rb.buffer_capacity / rb.num_scenario
  let prepared_ego_actions := prepared_pool samples_per_trajectory rb.buffer_ego_actions
  let prepared_scenario_actions :=
    prepared_pool samples_per_trajectory rb.buffer_scenario_actions
  let prepared_obs := prepared_pool samples_per_trajectory rb.buffer_obs
  let prepared_next_obs := prepared_pool samples_per_trajectory rb.buffer_next_obs
  let prepared_rewards := prepared_pool samples_per_trajectory rb.buffer_rewards
  let prepared_dones := prepared_pool samples_per_trajectory rb.buffer_dones
  if prepared_rewards.length = 0 then none
  else
    let action :=
      if rb.mode = "train_agent" then
        sample_index.map (fun i => prepared_ego_actions.getD i default)
      else
        sample_index.map (fun i => prepared_scenario_actions.getD i default)
    some
      { action := action,
        state := sample_index.map (fun i => prepared_obs.getD i default),
        n_state := sample_index.map (fun i => prepared_next_obs.getD i default),
        reward := sample_index.map (fun i => prepared_rewards.getD i default),
        done := sample_index.map (fun i => prepared_dones.getD i default) }

/-- C4: the batch dict ReplayBuffer.sample returns carries exactly the keys
action, state, n_state, reward, done; the keys task_action, mixed_action
and risk that SAC.train reads are absent, and the key action it does carry
is never read by SAC.train. -/
theorem C4_keys_mismatch :
    sample_batch_keys = ["action", "state", "n_state", "reward", "done"] ∧
    ("task_action" ∈ train_batch_keys ∧ "task_action" ∉ sample_batch_keys) ∧
    ("mixed_action" ∈ train_batch_keys ∧ "mixed_action" ∉ sample_batch_keys) ∧
    ("risk" ∈ train_batch_keys ∧ "risk" ∉ sample_batch_keys) ∧
    ("action" ∈ sample_batch_keys ∧ "action" ∉ train_batch_keys) := by
  decide

/-- The buffer for the C9 counterexample: capacity 1 split over 2
scenarios, one stored transition. -/
def rb_C9_empty_window : ReplayBuffer ℚ :=
  { mode := "train_agent", buffer_capacity := 1, num_scenario := 2,
    buffer_len := 1,
    buffer_ego_actions := [[10], []], buffer_scenario_actions := [[20], []],
    buffer_obs := [[30], []], buffer_next_obs := [[40], []],
    buffer_rewards := [[1], []], buffer_dones := [[0], []] }

/-- C9 counterexample: a buffer holding one stored transition whose
per-scenario window size capacity/num_scenarios is 0, so the concatenated
pool is empty and sample fails (np.random.randint over an empty range)
instead of returning a batch of the requested size. -/
theorem C9_counterexample :
    rb_C9_empty_window.buffer_rewards.flatten.length = 1 ∧
    rb_C9_empty_window.sample [0, 0, 0, 0] = none := by
  constructor
  · rfl
  · rfl

/-- C9 (amended): when the per-scenario window capacity/num_scenarios is at
least 1, any buffer holding at least one stored transition has a nonempty
pool, and then sample returns a batch each of whose five arrays has first
dimension exactly batch_size, whose rows are the pool entries at the
uniformly drawn (with replacement) indices; in particular every sampled
reward lies in the pool formed by concatenating, per scenario, only that
scenario's most recent capacity/num_scenarios transitions. -/
theorem C9_sample_shape {T : Type} [Inhabited T] (rb : ReplayBuffer T)
    (batch_size : ℕ) (sample_index : List ℕ)
    (hlen : sample_index.length = batch_size)
    (hwin : 1 ≤ rb.buffer_capacity / rb.num_scenario)
    (hstored : ∃ b ∈ rb.buffer_rewards, b ≠ [])
    (hidx : ∀ i ∈ sample_index,
      i < (prepared_pool (rb.buffer_capacity / rb.num_scenario)
            rb.buffer_rewards).length) :
    ∃ batch : SampleBatch T,
      rb.sample sample_index = some batch ∧
      batch.action.length = batch_size ∧
      batch.state.length = batch_size ∧
      batch.n_state.length = batch_size ∧
      batch.reward.length = batch_size ∧
      batch.done.length = batch_size ∧
      batch.reward = sample_index.map (fun i =>
        (prepared_pool (rb.buffer_capacity / rb.num_scenario)
          rb.buffer_rewards).getD i default) ∧
      ∀ x ∈ batch.reward,
        x ∈ prepared_pool (rb.buffer_capacity / rb.num_scenario)
              rb.buffer_rewards := by
  have hpool : prepared_pool (rb.buffer_capacity / rb.num_scenario)
      rb.buffer_rewards ≠ [] := by
    obtain ⟨b, hb, hbne⟩ := hstored
    intro hnil
    have hmem : b.drop (b.length - rb.buffer_capacity / rb.num_scenario)
        ∈ (rb.buffer_rewards.map
            (fun c => c.drop (c.length - rb.buffer_capacity / rb.num_scenario))) :=
      List.mem_map_of_mem _ hb
    have hdrop : b.drop (b.length - rb.buffer_capacity / rb.num_scenario) = [] := by
      have := List.flatten_eq_nil_iff.mp hnil
      exact this _ hmem
    have hble : b.length ≤ b.length - rb.buffer_capacity / rb.num_scenario := by
      simpa [List.drop_eq_nil_iff] using hdrop
    have hb1 : 1 ≤ b.length := by
      cases b with
      | nil => exact absurd rfl hbne
      | cons x xs => simp
    omega
  have hne : ¬ ((prepared_pool (rb.buffer_capacity / rb.num_scenario)
      rb.buffer_rewards).length = 0) := by
    simpa [List.length_eq_zero] using hpool
  have hsamp : rb.sample sample_index = some
      { action :=
          if rb.mode = "train_agent" then
            sample_index.map (fun i =>
              (prepared_pool (rb.buffer_capacity / rb.num_scenario)
                rb.buffer_ego_actions).getD i default)
          else
            sample_index.map (fun i =>
              (prepared_pool (rb.buffer_capacity / rb.num_scenario)
                rb.buffer_scenario_actions).getD i default),
        state := sample_index.map (fun i =>
          (prepared_pool (rb.buffer_capacity / rb.num_scenario)
            rb.buffer_obs).getD i default),
        n_state := sample_index.map (fun i =>
          (prepared_pool (rb.buffer_capacity / rb.num_scenario)
            rb.buffer_next_obs).getD i default),
        reward := sample_index.map (fun i =>
          (prepared_pool (rb.buffer_capacity / rb.num_scenario)
            rb.buffer_rewards).getD i default),
        done := sample_index.map (fun i =>
          (prepared_pool (rb.buffer_capacity / rb.num_scenario)
            rb.buffer_dones).getD i default) } := by
    simp only [ReplayBuffer.sample]
    rw [if_neg hne]
  refine ⟨_, hsamp, ?_, ?_, ?_, ?_, ?_, ?_, ?_⟩
  · show (if rb.mode = "train_agent" then _ else _ : List T).length = batch_size
    split <;> simp [hlen]
  · simpa using hlen
  · simpa using hlen
  · simpa using hlen
  · simpa using hlen
  · rfl
  · intro x hx
    obtain ⟨i, hi, rfl⟩ := List.mem_map.mp hx
    have hilt := hidx i hi
    rw [List.getD_eq_getElem _ _ hilt]
    exact List.getElem_mem hilt

/-- Buffer for the C9 witness: one scenario, capacity 2, three stored
transitions, so the sampling window keeps the most recent two. -/
def rb_C9_window : ReplayBuffer ℚ :=
  { mode := "train_agent", buffer_capacity := 2, num_scenario := 1,
    buffer_len := 3,
    buffer_ego_actions := [[10, 11, 12]],
    buffer_scenario_actions := [[20, 21, 22]],
    buffer_obs := [[30, 31, 32]], buffer_next_obs := [[40, 41, 42]],
    buffer_rewards := [[1, 2, 3]], buffer_dones := [[0, 0, 1]] }

theorem C9_sample_shape_witness :
    ([1, 0, 1] : List ℕ).length = 3 ∧
    1 ≤ rb_C9_window.buffer_capacity / rb_C9_window.num_scenario ∧
    (∃ b ∈ rb_C9_window.buffer_rewards, b ≠ []) ∧
    (∀ i ∈ ([1, 0, 1] : List ℕ),
      i < (prepared_pool (rb_C9_window.buffer_capacity / rb_C9_window.num_scenario)
            rb_C9_window.buffer_rewards).length) ∧
    ∃ batch : SampleBatch ℚ,
      rb_C9_window.sample [1, 0, 1] = some batch ∧
      batch.action.length = 3 ∧
      batch.state.length = 3 ∧
      batch.n_state.length = 3 ∧
      batch.reward.length = 3 ∧
      batch.done.length = 3 ∧
      batch.reward = ([1, 0, 1] : List ℕ).map (fun i =>
        (prepared_pool (rb_C9_window.buffer_capacity / rb_C9_window.num_scenario)
          rb_C9_window.buffer_rewards).getD i default) ∧
      ∀ x ∈ batch.reward,
        x ∈ prepared_pool (rb_C9_window.buffer_capacity / rb_C9_window.num_scenario)
              rb_C9_window.buffer_rewards :=
  ⟨rfl, by decide, by decide, by decide,
   C9_sample_shape rb_C9_window 3 [1, 0, 1] rfl (by decide) (by decide) (by decide)⟩

end SafeBench
